import Mathlib

/-!
Verification development for the `turn-render` repository.

The core under study is the mathematical expression tree (`MathNode` /
`MathNodeContent`) and its canonical serialization `to_json` into a
`serde_json::Value`.  The sources contain two revisions of the data model:

* `mod.rs` — the revision that carries the only serializer (`to_json`);
* `math_node.rs` — a later revision (extra variants, `Custom` relation
  operators, a `None` case on the addition operator, the `Identifier`
  struct with its `Ord` instance, and the `MathNode` constructor helpers),
  which has no serializer of its own.

Both revisions are embedded below, in namespaces `ModRs` and `MathNodeRs`.
`serde_json::Value` is embedded as the inductive `Json`; object fields are
kept in the order the serializer emits them (serde object equality is
key-based, and no property below depends on key order).  A Rust panic
(`todo!()` in the `Log2`, `Log10` and `Ln` arms) is modelled by `Option`:
a serializer call that panics returns `none`, and a panic in a child
propagates to the root.
-/

/-- Shallow embedding of `serde_json::Value`.  The only numbers the
serializer emits come from `usize`/`u8` fields, so `num` carries a `Nat`. -/
inductive Json where
  | null : Json
  | bool (b : Bool) : Json
  | num (n : Nat) : Json
  | str (s : String) : Json
  | arr (xs : List Json) : Json
  | obj (fields : List (String × Json)) : Json
deriving Repr

/-- Field lookup in a JSON object (first match); `none` on non-objects. -/
def Json.lookup? (v : Json) (key : String) : Option Json :=
  match v with
  | .obj fields => List.lookup key fields
  | _ => none

namespace ModRs

/-- `RelationOperatorNode` from `mod.rs` (the serializer's revision; it has
no `Custom` case). -/
inductive RelationOperatorNode where
  | IsEqual | Equal | NotEqual | Greater | Less | GreaterEqual | LessEqual
  | Collinear | Perpendicular | Equivalent | Similar | Congruent
deriving Repr, DecidableEq

/-- `AddOrSubOperatorNode` from `mod.rs`: only `Addition` and `Subtraction`. -/
inductive AddOrSubOperatorNode where
  | Addition | Subtraction
deriving Repr, DecidableEq

/-- `SpecialMiddleScriptContentTypeNode` from `mod.rs`. -/
inductive SpecialMiddleScriptContentTypeNode where
  | Hat : SpecialMiddleScriptContentTypeNode
  | Dot (n : Nat) : SpecialMiddleScriptContentTypeNode
  | Tilde : SpecialMiddleScriptContentTypeNode
  | Bar : SpecialMiddleScriptContentTypeNode
deriving Repr, DecidableEq

/-- `SpecialMiddleScriptNode` from `mod.rs`. -/
structure SpecialMiddleScriptNode where
  super_script : List SpecialMiddleScriptContentTypeNode
  sub_script : List SpecialMiddleScriptContentTypeNode
deriving Repr, DecidableEq

/-- `MulSymbol` from `mod.rs`. -/
inductive MulSymbol where
  | Quantity | Symbol | Simple | None
deriving Repr, DecidableEq

/-- `DivSymbol` from `mod.rs`. -/
inductive DivSymbol where
  | Slash | Divide
deriving Repr, DecidableEq

/-- `RefinedMulOrDivOperation` from `mod.rs`. -/
inductive RefinedMulOrDivOperation where
  | Multiplication (s : MulSymbol)
  | Division (s : DivSymbol)
deriving Repr, DecidableEq

/-- `DivisionStyle` from `mod.rs`. -/
inductive DivisionStyle where
  | Fraction | Inline | Division
deriving Repr, DecidableEq

/-- `BracketStyle` from `mod.rs`. -/
inductive BracketStyle where
  | Round | Square | Curly | Angle | Vertical | DoubleVertical
  | Ceiling | Floor | None
deriving Repr, DecidableEq

/-- `BracketSize` from `mod.rs`; the `u8` payload of `Sized` is embedded as
a `Nat` (it is only ever formatted, never computed with). -/
inductive BracketSize where
  | Normal : BracketSize
  | Auto : BracketSize
  | Sized (n : Nat) : BracketSize
deriving Repr, DecidableEq

mutual
/-- `MathNode` from `mod.rs`: `{ id: String, content: Box<MathNodeContent> }`. -/
inductive MathNode where
  | mk (id : String) (content : MathNodeContent) : MathNode

/-- `MathNodeContent` from `mod.rs`, the revision the serializer matches on. -/
inductive MathNodeContent where
  | Empty : MathNodeContent
  | Text (s : String) : MathNodeContent
  | String (s : String) : MathNodeContent
  | Integration (integrand : MathNode) (var : String)
      (lower_limit : Option MathNode) (upper_limit : Option MathNode) : MathNodeContent
  | Limit (function : MathNode) (var : String)
      (approaching_value : MathNode) : MathNodeContent
  | Multiplications (terms : List (RefinedMulOrDivOperation × MathNode)) : MathNodeContent
  | Additions (terms : List (AddOrSubOperatorNode × MathNode)) : MathNodeContent
  | Division (numerator : MathNode) (denominator : MathNode)
      (style : DivisionStyle) : MathNodeContent
  | SumNotation (summand : MathNode) (var : Option MathNode)
      (lower_limit : Option MathNode) (upper_limit : Option MathNode) : MathNodeContent
  | ProductNotation (multiplicand : MathNode) (var : Option MathNode)
      (lower_limit : Option MathNode) (upper_limit : Option MathNode) : MathNodeContent
  | Fraction (numerator : MathNode) (denominator : MathNode) : MathNodeContent
  | Bracketed (inner : MathNode) (style : BracketStyle) (size : BracketSize) : MathNodeContent
  | Matrix (rows : List (List MathNode)) : MathNodeContent
  | LogFunction (base : Option MathNode) (parameter : MathNode) : MathNodeContent
  | Log2 (parameter : MathNode) : MathNodeContent
  | Log10 (parameter : MathNode) : MathNodeContent
  | Ln (parameter : MathNode) : MathNodeContent
  | UnaryPostfix (parameter : MathNode) (operator : String) : MathNodeContent
  | UnaryPrefix (parameter : MathNode) (operator : String) : MathNodeContent
  | Abs (parameter : MathNode) : MathNodeContent
  | Power (base : MathNode) (exponent : MathNode) : MathNodeContent
  | CustomFunction (name : MathNode) (parameters : List MathNode) : MathNodeContent
  | SimpleUnaryFunction (name : String) (parameter : MathNode) : MathNodeContent
  | SimpleMultinaryFunction (name : String) (parameters : List MathNode) : MathNodeContent
  | Quantity (number : String) (unit : Option MathNode) : MathNodeContent
  | Identifier (body : String) (pre_script : Option MathNode)
      (mid_script : Option SpecialMiddleScriptNode) (post_script : Option MathNode)
      (primes : Nat) (is_function : Bool) : MathNodeContent
  | Script (subscripts : List MathNode) (superscripts : List MathNode) : MathNodeContent
  | Unit (original_form : MathNode) (flattened_form : MathNode) : MathNodeContent
  | BaseUnit (s : String) : MathNodeContent
  | Relationship (lhs : MathNode) (rhs : MathNode)
      (operator : RelationOperatorNode) : MathNodeContent
  | VariableDefinition (name : MathNode) (definition : Option MathNode) : MathNodeContent
  | FunctionDefinition (custom_function : MathNode)
      (definition : Option MathNode) : MathNodeContent
end

/-- The JSON value the `Multiplications` arm builds for one operator tag
(`mod.rs` lines 352-369): a small tagged object naming the symbol. -/
def mulOpToJson : RefinedMulOrDivOperation → Json
  | .Multiplication s =>
      .obj [("type", .str "multiplication"),
            ("symbol", .str (match s with
              | .Quantity => "times"
              | .Symbol => "symbol"
              | .Simple => "simple"
              | .None => "none"))]
  | .Division s =>
      .obj [("type", .str "division"),
            ("symbol", .str (match s with
              | .Slash => "slash"
              | .Divide => "divide"))]

/-- The operator string of the `Additions` arm (`mod.rs` lines 376-379). -/
def addOpToStr : AddOrSubOperatorNode → String
  | .Addition => "plus"
  | .Subtraction => "minus"

/-- The style string of the `Division` arm (`mod.rs` lines 391-395). -/
def divisionStyleToStr : DivisionStyle → String
  | .Fraction => "fraction"
  | .Inline => "inline"
  | .Division => "division"

/-- The style string of the `Bracketed` arm (`mod.rs` lines 432-442). -/
def bracketStyleToStr : BracketStyle → String
  | .Round => "round"
  | .Square => "square"
  | .Curly => "curly"
  | .Angle => "angle"
  | .Vertical => "vertical"
  | .DoubleVertical => "double_vertical"
  | .Ceiling => "ceiling"
  | .Floor => "floor"
  | .None => "none"

/-- The size string of the `Bracketed` arm (`mod.rs` lines 443-447):
`Sized(n)` is formatted as `sized_<n>`, never emitted as a number. -/
def bracketSizeToStr : BracketSize → String
  | .Normal => "normal"
  | .Auto => "auto"
  | .Sized n => "sized_" ++ toString n

/-- The operator string of the `Relationship` arm (`mod.rs` lines 552-564). -/
def relationOperatorToStr : RelationOperatorNode → String
  | .Equal | .IsEqual => "equal"
  | .NotEqual => "not_equal"
  | .Greater => "greater"
  | .Less => "less"
  | .GreaterEqual => "greater_equal"
  | .LessEqual => "less_equal"
  | .Collinear => "collinear"
  | .Perpendicular => "perpendicular"
  | .Equivalent => "equivalent"
  | .Similar => "similar"
  | .Congruent => "congruent"

/-- One mid-script mark as the string `SpecialMiddleScriptNode::to_json`
emits (`mod.rs` lines 601-612). -/
def midScriptMarkToStr : SpecialMiddleScriptContentTypeNode → String
  | .Bar => "bar"
  | .Dot n => "dot_" ++ toString n
  | .Hat => "hat"
  | .Tilde => "tilde"

/-- `SpecialMiddleScriptNode::to_json` from `mod.rs` (lines 598-615). -/
def SpecialMiddleScriptNode.toJson (m : SpecialMiddleScriptNode) : Json :=
  .obj [("superscripts", .arr (m.super_script.map (fun s => .str (midScriptMarkToStr s)))),
        ("subscripts", .arr (m.sub_script.map (fun s => .str (midScriptMarkToStr s))))]

/-- The `id` field of a `mod.rs` `MathNode`. -/
def MathNode.id : MathNode → String
  | .mk i _ => i

/-- The `content` field of a `mod.rs` `MathNode`. -/
def MathNode.content : MathNode → MathNodeContent
  | .mk _ c => c

/-- `MathNode::empty()` from `mod.rs`. -/
def MathNode.empty : MathNode := .mk "" .Empty

/-!
The `LogFunction` arm of `MathNodeContent::to_json` writes `"base": base`,
so the `Option<MathNode>` in `base` is serialized by the *derived*
`serde::Serialize` implementation (externally tagged enum encoding), not by
`to_json`.  The `serde*` functions below embed that derived encoding.
-/

/-- Derived serde encoding of `MulSymbol` (unit variants become their names). -/
def serdeMulSymbol : MulSymbol → Json
  | .Quantity => .str "Quantity"
  | .Symbol => .str "Symbol"
  | .Simple => .str "Simple"
  | .None => .str "None"

/-- Derived serde encoding of `DivSymbol`. -/
def serdeDivSymbol : DivSymbol → Json
  | .Slash => .str "Slash"
  | .Divide => .str "Divide"

/-- Derived serde encoding of `RefinedMulOrDivOperation` (newtype variants
become single-field objects). -/
def serdeMulOp : RefinedMulOrDivOperation → Json
  | .Multiplication s => .obj [("Multiplication", serdeMulSymbol s)]
  | .Division s => .obj [("Division", serdeDivSymbol s)]

/-- Derived serde encoding of `AddOrSubOperatorNode`. -/
def serdeAddOp : AddOrSubOperatorNode → Json
  | .Addition => .str "Addition"
  | .Subtraction => .str "Subtraction"

/-- Derived serde encoding of `DivisionStyle`. -/
def serdeDivisionStyle : DivisionStyle → Json
  | .Fraction => .str "Fraction"
  | .Inline => .str "Inline"
  | .Division => .str "Division"

/-- Derived serde encoding of `BracketStyle`. -/
def serdeBracketStyle : BracketStyle → Json
  | .Round => .str "Round"
  | .Square => .str "Square"
  | .Curly => .str "Curly"
  | .Angle => .str "Angle"
  | .Vertical => .str "Vertical"
  | .DoubleVertical => .str "DoubleVertical"
  | .Ceiling => .str "Ceiling"
  | .Floor => .str "Floor"
  | .None => .str "None"

/-- Derived serde encoding of `BracketSize`: `Sized(n)` keeps its number. -/
def serdeBracketSize : BracketSize → Json
  | .Normal => .str "Normal"
  | .Auto => .str "Auto"
  | .Sized n => .obj [("Sized", .num n)]

/-- Derived serde encoding of the `mod.rs` `RelationOperatorNode`. -/
def serdeRelationOperator : RelationOperatorNode → Json
  | .IsEqual => .str "IsEqual"
  | .Equal => .str "Equal"
  | .NotEqual => .str "NotEqual"
  | .Greater => .str "Greater"
  | .Less => .str "Less"
  | .GreaterEqual => .str "GreaterEqual"
  | .LessEqual => .str "LessEqual"
  | .Collinear => .str "Collinear"
  | .Perpendicular => .str "Perpendicular"
  | .Equivalent => .str "Equivalent"
  | .Similar => .str "Similar"
  | .Congruent => .str "Congruent"

/-- Derived serde encoding of `SpecialMiddleScriptContentTypeNode`. -/
def serdeMidScriptMark : SpecialMiddleScriptContentTypeNode → Json
  | .Hat => .str "Hat"
  | .Dot n => .obj [("Dot", .num n)]
  | .Tilde => .str "Tilde"
  | .Bar => .str "Bar"

/-- Derived serde encoding of `SpecialMiddleScriptNode`. -/
def serdeMidScript (m : SpecialMiddleScriptNode) : Json :=
  .obj [("super_script", .arr (m.super_script.map serdeMidScriptMark)),
        ("sub_script", .arr (m.sub_script.map serdeMidScriptMark))]

mutual
/-- Derived serde encoding of a `mod.rs` `MathNode` (a two-field struct). -/
def serdeNode : MathNode → Json
  | .mk i c => .obj [("id", .str i), ("content", serdeContent c)]

/-- Derived serde encoding of `Option<MathNode>`: `None` is `null`. -/
def serdeOptNode : Option MathNode → Json
  | none => .null
  | some m => serdeNode m

/-- Derived serde encoding of a `Vec<MathNode>`. -/
def serdeNodeList : List MathNode → List Json
  | [] => []
  | m :: ms => serdeNode m :: serdeNodeList ms

/-- Derived serde encoding of a `Vec<Vec<MathNode>>` (matrix rows). -/
def serdeRows : List (List MathNode) → List Json
  | [] => []
  | r :: rs => .arr (serdeNodeList r) :: serdeRows rs

/-- Derived serde encoding of the `Multiplications` term vector (each tuple
becomes a two-element array). -/
def serdeMulTerms : List (RefinedMulOrDivOperation × MathNode) → List Json
  | [] => []
  | (op, t) :: rest => .arr [serdeMulOp op, serdeNode t] :: serdeMulTerms rest

/-- Derived serde encoding of the `Additions` term vector. -/
def serdeAddTerms : List (AddOrSubOperatorNode × MathNode) → List Json
  | [] => []
  | (op, t) :: rest => .arr [serdeAddOp op, serdeNode t] :: serdeAddTerms rest

/-- Derived serde encoding of the `mod.rs` `MathNodeContent` enum
(externally tagged: unit variants are strings, the rest are one-field
objects keyed by the variant name). -/
def serdeContent : MathNodeContent → Json
  | .Empty => .str "Empty"
  | .Text s => .obj [("Text", .str s)]
  | .String s => .obj [("String", .str s)]
  | .Integration i v lo hi =>
      .obj [("Integration", .obj [("integrand", serdeNode i), ("variable", .str v),
        ("lower_limit", serdeOptNode lo), ("upper_limit", serdeOptNode hi)])]
  | .Limit f v a =>
      .obj [("Limit", .obj [("function", serdeNode f), ("variable", .str v),
        ("approaching_value", serdeNode a)])]
  | .Multiplications terms =>
      .obj [("Multiplications", .obj [("terms", .arr (serdeMulTerms terms))])]
  | .Additions terms =>
      .obj [("Additions", .obj [("terms", .arr (serdeAddTerms terms))])]
  | .Division n d style =>
      .obj [("Division", .obj [("numerator", serdeNode n), ("denominator", serdeNode d),
        ("style", serdeDivisionStyle style)])]
  | .SumNotation s v lo hi =>
      .obj [("SumNotation", .obj [("summand", serdeNode s), ("variable", serdeOptNode v),
        ("lower_limit", serdeOptNode lo), ("upper_limit", serdeOptNode hi)])]
  | .ProductNotation m v lo hi =>
      .obj [("ProductNotation", .obj [("multiplicand", serdeNode m),
        ("variable", serdeOptNode v), ("lower_limit", serdeOptNode lo),
        ("upper_limit", serdeOptNode hi)])]
  | .Fraction n d =>
      .obj [("Fraction", .obj [("numerator", serdeNode n), ("denominator", serdeNode d)])]
  | .Bracketed inner style size =>
      .obj [("Bracketed", .obj [("inner", serdeNode inner),
        ("style", serdeBracketStyle style), ("size", serdeBracketSize size)])]
  | .Matrix rows => .obj [("Matrix", .obj [("rows", .arr (serdeRows rows))])]
  | .LogFunction base p =>
      .obj [("LogFunction", .obj [("base", serdeOptNode base), ("parameter", serdeNode p)])]
  | .Log2 p => .obj [("Log2", .obj [("parameter", serdeNode p)])]
  | .Log10 p => .obj [("Log10", .obj [("parameter", serdeNode p)])]
  | .Ln p => .obj [("Ln", .obj [("parameter", serdeNode p)])]
  | .UnaryPostfix p op =>
      .obj [("UnaryPostfix", .obj [("parameter", serdeNode p), ("operator", .str op)])]
  | .UnaryPrefix p op =>
      .obj [("UnaryPrefix", .obj [("parameter", serdeNode p), ("operator", .str op)])]
  | .Abs p => .obj [("Abs", .obj [("parameter", serdeNode p)])]
  | .Power b e =>
      .obj [("Power", .obj [("base", serdeNode b), ("exponent", serdeNode e)])]
  | .CustomFunction n ps =>
      .obj [("CustomFunction", .obj [("name", serdeNode n),
        ("parameters", .arr (serdeNodeList ps))])]
  | .SimpleUnaryFunction n p =>
      .obj [("SimpleUnaryFunction", .obj [("name", .str n), ("parameter", serdeNode p)])]
  | .SimpleMultinaryFunction n ps =>
      .obj [("SimpleMultinaryFunction", .obj [("name", .str n),
        ("parameters", .arr (serdeNodeList ps))])]
  | .Quantity number unit =>
      .obj [("Quantity", .obj [("number", .str number), ("unit", serdeOptNode unit)])]
  | .Identifier body pre mid post primes isf =>
      .obj [("Identifier", .obj [("body", .str body), ("pre_script", serdeOptNode pre),
        ("mid_script", match mid with | none => .null | some m => serdeMidScript m),
        ("post_script", serdeOptNode post), ("primes", .num primes),
        ("is_function", .bool isf)])]
  | .Script subs sups =>
      .obj [("Script", .obj [("subscripts", .arr (serdeNodeList subs)),
        ("superscripts", .arr (serdeNodeList sups))])]
  | .Unit o f =>
      .obj [("Unit", .obj [("original_form", serdeNode o), ("flattened_form", serdeNode f)])]
  | .BaseUnit s => .obj [("BaseUnit", .str s)]
  | .Relationship lhs rhs op =>
      .obj [("Relationship", .obj [("lhs", serdeNode lhs), ("rhs", serdeNode rhs),
        ("operator", serdeRelationOperator op)])]
  | .VariableDefinition n d =>
      .obj [("VariableDefinition", .obj [("name", serdeNode n),
        ("definition", serdeOptNode d)])]
  | .FunctionDefinition c d =>
      .obj [("FunctionDefinition", .obj [("custom_function", serdeNode c),
        ("definition", serdeOptNode d)])]
end

mutual
/-- `MathNode::to_json` from `mod.rs` (lines 311-318): a two-field object
`{id, content}`.  `none` models a Rust panic reaching this call. -/
def MathNode.toJson : MathNode → Option Json
  | .mk i c =>
      Option.bind (MathNodeContent.toJson c) fun cv =>
        some (.obj [("id", .str i), ("content", cv)])

/-- The serializer's treatment of an `Option<Box<MathNode>>` field
(`opt.as_ref().map(|l| l.to_json())` fed to `json!`): `None` becomes
`null`; `Some` recurses (and propagates a panic). -/
def optNodeToJson : Option MathNode → Option Json
  | none => some .null
  | some m => m.toJson

/-- Serialization of a `Vec<MathNode>` by mapping `to_json` over it. -/
def nodeListToJson : List MathNode → Option (List Json)
  | [] => some []
  | m :: ms =>
      Option.bind m.toJson fun v =>
        Option.bind (nodeListToJson ms) fun vs => some (v :: vs)

/-- Serialization of the rows of a `Matrix` (each row becomes an array). -/
def rowsToJson : List (List MathNode) → Option (List Json)
  | [] => some []
  | r :: rs =>
      Option.bind (nodeListToJson r) fun v =>
        Option.bind (rowsToJson rs) fun vs => some (.arr v :: vs)

/-- Serialization of the `Multiplications` term vector (`mod.rs` 351-371):
each term becomes `{operator, term}`. -/
def mulTermsToJson : List (RefinedMulOrDivOperation × MathNode) → Option (List Json)
  | [] => some []
  | (op, t) :: rest =>
      Option.bind t.toJson fun tv =>
        Option.bind (mulTermsToJson rest) fun vs =>
          some (.obj [("operator", mulOpToJson op), ("term", tv)] :: vs)

/-- Serialization of the `Additions` term vector (`mod.rs` 375-381). -/
def addTermsToJson : List (AddOrSubOperatorNode × MathNode) → Option (List Json)
  | [] => some []
  | (op, t) :: rest =>
      Option.bind t.toJson fun tv =>
        Option.bind (addTermsToJson rest) fun vs =>
          some (.obj [("operator", .str (addOpToStr op)), ("term", tv)] :: vs)

/-- `MathNodeContent::to_json` from `mod.rs` (lines 320-581).  The `Log2`,
`Log10` and `Ln` arms are `todo!()` in the source, i.e. they panic; that
panic is modelled by `none`, and any panic in a child propagates outward
through `Option.bind`. -/
def MathNodeContent.toJson : MathNodeContent → Option Json
  | .Empty => some (.obj [("type", .str "empty")])
  | .String s => some (.str s)
  | .Integration integrand v lo hi =>
      Option.bind integrand.toJson fun iv =>
        Option.bind (optNodeToJson lo) fun lv =>
          Option.bind (optNodeToJson hi) fun uv =>
            some (.obj [("type", .str "integration"), ("integrand", iv),
              ("variable", .str v), ("lower_limit", lv), ("upper_limit", uv)])
  | .Limit f v a =>
      Option.bind f.toJson fun fv =>
        Option.bind a.toJson fun av =>
          some (.obj [("type", .str "limit"), ("function", fv),
            ("variable", .str v), ("approaching_value", av)])
  | .Multiplications terms =>
      Option.bind (mulTermsToJson terms) fun ts =>
        some (.obj [("type", .str "multiplication"), ("terms", .arr ts)])
  | .Additions terms =>
      Option.bind (addTermsToJson terms) fun ts =>
        some (.obj [("type", .str "addition"), ("terms", .arr ts)])
  | .Division n d style =>
      Option.bind n.toJson fun nv =>
        Option.bind d.toJson fun dv =>
          some (.obj [("type", .str "division"), ("numerator", nv),
            ("denominator", dv), ("style", .str (divisionStyleToStr style))])
  | .SumNotation s v lo hi =>
      Option.bind s.toJson fun sv =>
        Option.bind (optNodeToJson v) fun vv =>
          Option.bind (optNodeToJson lo) fun lv =>
            Option.bind (optNodeToJson hi) fun uv =>
              some (.obj [("type", .str "sum"), ("summand", sv), ("variable", vv),
                ("lower_limit", lv), ("upper_limit", uv)])
  | .ProductNotation m v lo hi =>
      Option.bind m.toJson fun mv =>
        Option.bind (optNodeToJson v) fun vv =>
          Option.bind (optNodeToJson lo) fun lv =>
            Option.bind (optNodeToJson hi) fun uv =>
              some (.obj [("type", .str "product"), ("multiplicand", mv),
                ("variable", vv), ("lower_limit", lv), ("upper_limit", uv)])
  | .Fraction n d =>
      Option.bind n.toJson fun nv =>
        Option.bind d.toJson fun dv =>
          some (.obj [("type", .str "fraction"), ("numerator", nv),
            ("denominator", dv)])
  | .Bracketed inner style size =>
      Option.bind inner.toJson fun iv =>
        some (.obj [("type", .str "bracketed"), ("inner", iv),
          ("style", .str (bracketStyleToStr style)),
          ("size", .str (bracketSizeToStr size))])
  | .Matrix rows =>
      Option.bind (rowsToJson rows) fun rs =>
        some (.obj [("type", .str "matrix"), ("rows", .arr rs)])
  | .LogFunction base p =>
      Option.bind p.toJson fun pv =>
        some (.obj [("type", .str "logarithmic_function"),
          ("base", serdeOptNode base), ("parameter", pv)])
  | .Log2 _ => none
  | .Log10 _ => none
  | .Ln _ => none
  | .UnaryPostfix p op =>
      Option.bind p.toJson fun pv =>
        some (.obj [("type", .str "unary_postfix"), ("parameter", pv),
          ("operator", .str op)])
  | .UnaryPrefix p op =>
      Option.bind p.toJson fun pv =>
        some (.obj [("type", .str "unary_prefix"), ("parameter", pv),
          ("operator", .str op)])
  | .Abs p =>
      Option.bind p.toJson fun pv =>
        some (.obj [("type", .str "absolute_value"), ("parameter", pv)])
  | .Power b e =>
      Option.bind b.toJson fun bv =>
        Option.bind e.toJson fun ev =>
          some (.obj [("type", .str "power_function"), ("base", bv),
            ("exponent", ev)])
  | .CustomFunction n ps =>
      Option.bind n.toJson fun nv =>
        Option.bind (nodeListToJson ps) fun pvs =>
          some (.obj [("type", .str "custom_function"), ("name", nv),
            ("parameters", .arr pvs)])
  | .SimpleUnaryFunction n p =>
      Option.bind p.toJson fun pv =>
        some (.obj [("type", .str "unary_function"), ("name", .str n),
          ("parameter", pv)])
  | .SimpleMultinaryFunction n ps =>
      Option.bind (nodeListToJson ps) fun pvs =>
        some (.obj [("type", .str "multinary_function"), ("name", .str n),
          ("parameters", .arr pvs)])
  | .Quantity number unit =>
      Option.bind (optNodeToJson unit) fun uv =>
        some (.obj [("type", .str "quantity"), ("number", .str number),
          ("unit", uv)])
  | .Identifier body pre mid post primes isf =>
      Option.bind (optNodeToJson pre) fun prev =>
        Option.bind (optNodeToJson post) fun postv =>
          some (.obj [("type", .str "identifier"), ("body", .str body),
            ("pre_script", prev),
            ("mid_script", match mid with
              | none => .null
              | some m => m.toJson),
            ("post_script", postv), ("primes", .num primes),
            ("is_function", .bool isf)])
  | .Script subs sups =>
      Option.bind (nodeListToJson subs) fun subv =>
        Option.bind (nodeListToJson sups) fun supv =>
          some (.obj [("type", .str "script"), ("subscripts", .arr subv),
            ("superscripts", .arr supv)])
  | .Unit o f =>
      Option.bind o.toJson fun ov =>
        Option.bind f.toJson fun fv =>
          some (.obj [("type", .str "unit"), ("original", ov),
            ("is_flattened", fv)])
  | .BaseUnit s =>
      some (.obj [("type", .str "base_unit"), ("name", .str s)])
  | .Text s =>
      some (.obj [("type", .str "text"), ("content", .str s)])
  | .Relationship lhs rhs op =>
      Option.bind lhs.toJson fun lv =>
        Option.bind rhs.toJson fun rv =>
          some (.obj [("type", .str "relationship"), ("lhs", lv), ("rhs", rv),
            ("operator", .str (relationOperatorToStr op))])
  | .VariableDefinition n d =>
      Option.bind n.toJson fun nv =>
        Option.bind (optNodeToJson d) fun dv =>
          some (.obj [("type", .str "variable_definition"), ("name", nv),
            ("definition", dv)])
  | .FunctionDefinition c d =>
      Option.bind c.toJson fun cv =>
        Option.bind (optNodeToJson d) fun dv =>
          some (.obj [("type", .str "function_definition"),
            ("custom_function", cv), ("definition", dv)])
end

/-- Whether a content value is the `String` variant (the one variant whose
serialization is a bare JSON string rather than a tagged object). -/
def isStringVariant : MathNodeContent → Bool
  | .String _ => true
  | _ => false

/-- Whether a JSON value is an object carrying a string-valued `type` field. -/
def hasTypeTag (v : Json) : Bool :=
  match v.lookup? "type" with
  | some (.str _) => true
  | _ => false

/-- Whether key `k` of `v` is present and explicitly `null`. -/
def isNullAt (v : Json) (k : String) : Bool :=
  match v.lookup? k with
  | some .null => true
  | _ => false

/-- For an optional child field: if the source `Option` is `None`, the
serialized object must carry the field explicitly as `null`. -/
def chkOpt (o : Option MathNode) (k : String) (v : Json) : Bool :=
  match o with
  | none => isNullAt v k
  | some _ => true

/-- Per-variant check that every `Option` field of the variant's schema
appears explicitly as `null` in the output object when absent. -/
def noneNullOk : MathNodeContent → Json → Bool
  | .Integration _ _ lo hi, v => chkOpt lo "lower_limit" v && chkOpt hi "upper_limit" v
  | .SumNotation _ va lo hi, v =>
      chkOpt va "variable" v && chkOpt lo "lower_limit" v && chkOpt hi "upper_limit" v
  | .ProductNotation _ va lo hi, v =>
      chkOpt va "variable" v && chkOpt lo "lower_limit" v && chkOpt hi "upper_limit" v
  | .LogFunction base _, v => chkOpt base "base" v
  | .Quantity _ unit, v => chkOpt unit "unit" v
  | .Identifier _ pre mid post _ _, v =>
      chkOpt pre "pre_script" v &&
      (match mid with | none => isNullAt v "mid_script" | some _ => true) &&
      chkOpt post "post_script" v
  | .VariableDefinition _ d, v => chkOpt d "definition" v
  | .FunctionDefinition _ d, v => chkOpt d "definition" v
  | _, _ => true

end ModRs

namespace MathNodeRs

/-- `ScientificNotationStyle` from `math_node.rs`. -/
inductive ScientificNotationStyle where
  | LowerCaseE | UpperCaseE | TimesTenPower
deriving Repr, DecidableEq

/-- `DifferentialStyle` from `math_node.rs`. -/
inductive DifferentialStyle where
  | Partial | Total
deriving Repr, DecidableEq

/-- `QuantificationNode` from `math_node.rs`. -/
inductive QuantificationNode where
  | Universal | Existential | UniqueExistential | Defined | Fixed
deriving Repr, DecidableEq

/-- `MulSymbol` from `math_node.rs` (this revision renamed the cases). -/
inductive MulSymbol where
  | Times | Dot | LittleSpace
deriving Repr, DecidableEq

/-- `DivSymbol` from `math_node.rs`. -/
inductive DivSymbol where
  | Slash | Divide
deriving Repr, DecidableEq

/-- `RefinedMulOrDivOperation` from `math_node.rs` (it gained a `None` case). -/
inductive RefinedMulOrDivOperation where
  | Multiplication (s : MulSymbol)
  | Division (s : DivSymbol)
  | None
deriving Repr, DecidableEq

/-- `DivisionStyle` from `math_node.rs`. -/
inductive DivisionStyle where
  | Fraction | Inline | Division
deriving Repr, DecidableEq

/-- `RefinedAddOrSubOperator` from `math_node.rs`: unlike the `mod.rs`
`AddOrSubOperatorNode`, it has a `None` case for the leading term. -/
inductive RefinedAddOrSubOperator where
  | Addition | Subtraction | None
deriving Repr, DecidableEq

/-- `BracketStyle` from `math_node.rs`. -/
inductive BracketStyle where
  | Round | Square | Curly | Angle | Vertical | DoubleVertical
  | Ceiling | Floor | None
deriving Repr, DecidableEq

/-- `BracketSize` from `math_node.rs`. -/
inductive BracketSize where
  | Normal : BracketSize
  | Auto : BracketSize
  | Sized (n : Nat) : BracketSize
deriving Repr, DecidableEq

/-- `RelationOperatorNode` from `math_node.rs`: the extended vocabulary with
the `Custom(String)` escape hatch. -/
inductive RelationOperatorNode where
  | IsEqual | Equal | NotEqual | Greater | Less | GreaterEqual | LessEqual
  | Collinear | Perpendicular | Equivalent | Similar | Congruent
  | ElementOf | NotElementOf | SubsetOf | ProperSubsetOf | SupersetOf
  | ProperSupersetOf | Disjoint | Union | Intersection | CartesianProduct
  | SameCardinality
  | Divides | NotDivides | CongruentMod | NotCongruentMod | AreCoprime
  | IsSubgroupOf | IsNormalSubgroupOf | IsIsomorphicTo | IsHomomorphicTo
  | IsQuotientOf | IsInCenterOf | AreConjugateIn
  | IsSubringOf | IsIdealOf
  | IsOpenIn | IsClosedIn | IsHomeomorphicTo | IsDense
  | IsMorphismBetween | IsIsomorphismIn | IsMonomorphismIn | IsEpimorphismIn
  | IsNaturalTransformationBetween | IsAdjunctionBetween | ComposesTo
  | Implies | Iff
  | Custom (s : String)
deriving Repr

/-- `UnaryRelationOperatorNode` from `math_node.rs`. -/
inductive UnaryRelationOperatorNode where
  | IsPrime | IsComposite
  | HasOrderInGroup | HasUniqueInverse
  | IsPrimeIdeal | IsMaximalIdeal | IsPrincipalIdeal | IsUnit | IsIrreducible
  | IsPrimeElement | IsField | IsIntegralDomain | IsUFD | IsPID
  | IsCompact | IsConnected | IsContinuous | Converges | IsHausdorff
  | IsObjectIn | IsEndomorphismIn | IsAutomorphismIn
  | Complement | PowerSet
  | Custom (s : String)
deriving Repr

/-- `SpecialMiddleScriptContentTypeNode` from `math_node.rs`. -/
inductive SpecialMiddleScriptContentTypeNode where
  | Hat : SpecialMiddleScriptContentTypeNode
  | Dot (n : Nat) : SpecialMiddleScriptContentTypeNode
  | Tilde : SpecialMiddleScriptContentTypeNode
  | Bar : SpecialMiddleScriptContentTypeNode
deriving Repr, DecidableEq

/-- `SpecialMiddleScriptNode` from `math_node.rs`. -/
structure SpecialMiddleScriptNode where
  super_script : List SpecialMiddleScriptContentTypeNode
  sub_script : List SpecialMiddleScriptContentTypeNode
deriving Repr, DecidableEq

mutual
/-- `MathNode` from `math_node.rs`: `{ id: String, content: Arc<MathNodeContent> }`. -/
inductive MathNode where
  | mk (id : String) (content : MathNodeContent) : MathNode

/-- `MathNodeContent` from `math_node.rs`, the later revision of the
content enum (no serializer exists for it in the sources). -/
inductive MathNodeContent where
  | Empty : MathNodeContent
  | Text (s : String) : MathNodeContent
  | String (s : String) : MathNodeContent
  | Bracketed (inner : MathNode) (style : BracketStyle) (size : BracketSize) : MathNodeContent
  | Matrix (rows : List (List MathNode)) : MathNodeContent
  | Multiplications (terms : List (RefinedMulOrDivOperation × MathNode)) : MathNodeContent
  | Additions (terms : List (RefinedAddOrSubOperator × MathNode)) : MathNodeContent
  | Division (numerator : MathNode) (denominator : MathNode)
      (style : DivisionStyle) : MathNodeContent
  | SumNotation (summand : MathNode) (var : Option MathNode)
      (lower_limit : Option MathNode) (upper_limit : Option MathNode) : MathNodeContent
  | ProductNotation (multiplicand : MathNode) (var : Option MathNode)
      (lower_limit : Option MathNode) (upper_limit : Option MathNode) : MathNodeContent
  | Fraction (numerator : MathNode) (denominator : MathNode) : MathNodeContent
  | Power (base : MathNode) (exponent : MathNode) : MathNodeContent
  | UnaryPostfixOperation (parameter : MathNode) (operator : MathNode) : MathNodeContent
  | UnaryPrefixOperation (parameter : MathNode) (operator : MathNode) : MathNodeContent
  | Abs (parameter : MathNode) : MathNodeContent
  | FunctionCall (name : MathNode) (parameters : List MathNode) : MathNodeContent
  | Quantity (number : String) ( scientific_notation : Option MathNode)
      (unit : Option MathNode) : MathNodeContent
  | ScientificNotation (magnitude : MathNode) (style : ScientificNotationStyle) : MathNodeContent
  | Identifier (ident : Identifier) : MathNodeContent
  | Unit (original_form : MathNode) (flattened_form : MathNode) : MathNodeContent
  | Relationship (lhs : MathNode) (rhs : MathNode)
      (operator : RelationOperatorNode) : MathNodeContent
  | UnaryRelationship (subject : MathNode)
      (predicate : UnaryRelationOperatorNode) : MathNodeContent
  | VariableDefinition (name : MathNode) (definition : Option MathNode) : MathNodeContent
  | FunctionDefinition (custom_function : MathNode)
      (definition : Option MathNode) : MathNodeContent
  | Limit (function : MathNode) (var : String)
      (approaching_value : MathNode) : MathNodeContent
  | Differential (target : MathNode) (order : MathNode)
      (diff_style : DifferentialStyle) : MathNodeContent
  | Integration (integrand : MathNode)
      (differentials : List (MathNode × Option MathNode × Option MathNode))
      (domain : Option MathNode) : MathNodeContent
  | QuantifiedExpression (quantifier : QuantificationNode)
      (vars : List Identifier) (domain : Option MathNode)
      (predicate : Option MathNode) : MathNodeContent
  | And (nodes : List MathNode) : MathNodeContent
  | Or (nodes : List MathNode) : MathNodeContent
  | Not (node : MathNode) : MathNodeContent
  | True : MathNodeContent
  | False : MathNodeContent

/-- `Identifier` from `math_node.rs`: named symbol with scripts, primes and
a function flag.  `PartialEq` is derived, so equality compares all fields. -/
inductive Identifier where
  | mk (body : String) (pre_script : Option ScriptNode)
      (mid_script : Option SpecialMiddleScriptNode)
      (post_script : Option ScriptNode) (primes : Nat)
      (is_function : Bool) : Identifier

/-- `ScriptNode` from `math_node.rs`. -/
inductive ScriptNode where
  | mk (subscripts : List MathNode) (superscripts : List MathNode) : ScriptNode
end

/-- The `id` field of a `math_node.rs` `MathNode`. -/
def MathNode.id : MathNode → String
  | .mk i _ => i

/-- The `content` field of a `math_node.rs` `MathNode`. -/
def MathNode.content : MathNode → MathNodeContent
  | .mk _ c => c

/-- The `body` field of an `Identifier`. -/
def Identifier.body : Identifier → String
  | .mk b _ _ _ _ _ => b

/-- The `primes` field of an `Identifier`. -/
def Identifier.primes : Identifier → Nat
  | .mk _ _ _ _ p _ => p

/-- `MathNode::empty()` from `math_node.rs` (lines 18-23). -/
def MathNode.empty : MathNode := .mk "" .Empty

/-- `MathNode::identifier` from `math_node.rs` (lines 40-45): the node id is
the identifier's body. -/
def MathNode.identifier (input : Identifier) : MathNode :=
  .mk input.body (.Identifier input)

/-- `MathNode::string` from `math_node.rs` (lines 47-52): the node id is the
string itself. -/
def MathNode.string (input : String) : MathNode :=
  .mk input (.String input)

/-- `MathNode::text` from `math_node.rs` (lines 54-59): the node id is the
string itself. -/
def MathNode.text (input : String) : MathNode :=
  .mk input (.Text input)

/-- `Identifier::new_simple` from `math_node.rs` (lines 245-254). -/
def Identifier.new_simple (body : String) : Identifier :=
  .mk body none none none 0 false

/-- `impl Ord for Identifier` from `math_node.rs` (lines 232-236): comparison
looks only at the `body` field. -/
def Identifier.cmp (a b : Identifier) : Ordering :=
  compare a.body b.body

/-- Modelled from the spec: the serialization of the `math_node.rs`
`RelationOperatorNode` vocabulary.  The only serializer in the sources
(`mod.rs`) predates this enum and has no arm for its extended cases, so the
mapping is modelled here: the twelve cases shared with `mod.rs` keep the
strings of the `mod.rs` `Relationship` arm, the extended cases use the same
snake_case tag convention, and — as §3.3 of the spec requires — `Custom(s)`
passes `s` through unchanged rather than being rejected. -/
def relationOperatorToJson : RelationOperatorNode → Json
  | .Equal | .IsEqual => .str "equal"
  | .NotEqual => .str "not_equal"
  | .Greater => .str "greater"
  | .Less => .str "less"
  | .GreaterEqual => .str "greater_equal"
  | .LessEqual => .str "less_equal"
  | .Collinear => .str "collinear"
  | .Perpendicular => .str "perpendicular"
  | .Equivalent => .str "equivalent"
  | .Similar => .str "similar"
  | .Congruent => .str "congruent"
  | .ElementOf => .str "element_of"
  | .NotElementOf => .str "not_element_of"
  | .SubsetOf => .str "subset_of"
  | .ProperSubsetOf => .str "proper_subset_of"
  | .SupersetOf => .str "superset_of"
  | .ProperSupersetOf => .str "proper_superset_of"
  | .Disjoint => .str "disjoint"
  | .Union => .str "union"
  | .Intersection => .str "intersection"
  | .CartesianProduct => .str "cartesian_product"
  | .SameCardinality => .str "same_cardinality"
  | .Divides => .str "divides"
  | .NotDivides => .str "not_divides"
  | .CongruentMod => .str "congruent_mod"
  | .NotCongruentMod => .str "not_congruent_mod"
  | .AreCoprime => .str "are_coprime"
  | .IsSubgroupOf => .str "is_subgroup_of"
  | .IsNormalSubgroupOf => .str "is_normal_subgroup_of"
  | .IsIsomorphicTo => .str "is_isomorphic_to"
  | .IsHomomorphicTo => .str "is_homomorphic_to"
  | .IsQuotientOf => .str "is_quotient_of"
  | .IsInCenterOf => .str "is_in_center_of"
  | .AreConjugateIn => .str "are_conjugate_in"
  | .IsSubringOf => .str "is_subring_of"
  | .IsIdealOf => .str "is_ideal_of"
  | .IsOpenIn => .str "is_open_in"
  | .IsClosedIn => .str "is_closed_in"
  | .IsHomeomorphicTo => .str "is_homeomorphic_to"
  | .IsDense => .str "is_dense"
  | .IsMorphismBetween => .str "is_morphism_between"
  | .IsIsomorphismIn => .str "is_isomorphism_in"
  | .IsMonomorphismIn => .str "is_monomorphism_in"
  | .IsEpimorphismIn => .str "is_epimorphism_in"
  | .IsNaturalTransformationBetween => .str "is_natural_transformation_between"
  | .IsAdjunctionBetween => .str "is_adjunction_between"
  | .ComposesTo => .str "composes_to"
  | .Implies => .str "implies"
  | .Iff => .str "iff"
  | .Custom s => .str s

/-- Modelled from the spec: the `Relationship` arm of the canonical
serializer over the `math_node.rs` revision (missing from the sources —
the `mod.rs` serializer's operator enum has no `Custom` case).  The child
serializer is a parameter, since the claim is about the arm's own shape:
`{type: "relationship", lhs, rhs, operator}` with both sides recursively
serialized and the operator mapped by `relationOperatorToJson`. -/
def relationshipToJson (f : MathNode → Json) (lhs rhs : MathNode)
    (op : RelationOperatorNode) : Json :=
  .obj [("type", .str "relationship"), ("lhs", f lhs), ("rhs", f rhs),
        ("operator", relationOperatorToJson op)]

/-- Modelled from the spec: the operator tag of the `Additions` arm over
the `math_node.rs` `RefinedAddOrSubOperator` (missing from the sources —
the `mod.rs` serializer's `AddOrSubOperatorNode` has no `None` case).
`Addition`/`Subtraction` keep the `mod.rs` strings `"plus"`/`"minus"`; the
spec leaves the string of the leading `None` tag unspecified (consumers
must not require a leading operator), so it follows the serializer's
convention for other `None`-like enum cases (`MulSymbol::None ↦ "none"`). -/
def refinedAddOrSubToJson : RefinedAddOrSubOperator → Json
  | .Addition => .str "plus"
  | .Subtraction => .str "minus"
  | .None => .str "none"

/-- Modelled from the spec: the `Additions` arm of the canonical serializer
over the `math_node.rs` revision, child serializer as a parameter: each
`(operator, term)` pair becomes `{operator, term}` in a `terms` array. -/
def additionsToJson (f : MathNode → Json)
    (terms : List (RefinedAddOrSubOperator × MathNode)) : Json :=
  .obj [("type", .str "addition"),
        ("terms", .arr (terms.map fun t =>
          .obj [("operator", refinedAddOrSubToJson t.1), ("term", f t.2)]))]

end MathNodeRs

/-!  Theorems.  -/

/-- Helper: if an optional child was serialized to `w` and the output object
carries `w` under key `k`, then the explicit-null check for that field holds
(when the child is absent, `w` is `null` by definition of `optNodeToJson`). -/
theorem chkOpt_of_lookup {o : Option ModRs.MathNode} {k : String} {v w : Json}
    (ho : ModRs.optNodeToJson o = some w) (hv : Json.lookup? v k = some w) :
    ModRs.chkOpt o k v = true := by
  cases o with
  | none =>
      simp only [ModRs.optNodeToJson, Option.some.injEq] at ho
      subst ho
      simp [ModRs.chkOpt, ModRs.isNullAt, hv]
  | some m => rfl

/-- C1: the spec declares the canonical serializer total — every well-formed
Expression Node, in particular nodes whose content is `Log2`, `Log10` or
`Ln`, is claimed to produce a value with no panic.  The code contradicts
this: those three arms of `MathNodeContent::to_json` are `todo!()`, which
aborts.  This theorem evaluates the embedded serializer (where `none`
models the panic) at such inputs. -/
theorem to_json_panics_on_log_variants :
    ModRs.MathNode.toJson (.mk "log2_node" (.Log2 ModRs.MathNode.empty)) = none ∧
    ModRs.MathNodeContent.toJson (.Log10 ModRs.MathNode.empty) = none ∧
    ModRs.MathNodeContent.toJson (.Ln ModRs.MathNode.empty) = none :=
  ⟨rfl, rfl, rfl⟩

/-- C2 counterexample: the claim says every `MathNodeContent` variant — in
particular `String(s)` — serializes to an object with a string-valued
`type` tag.  But the `String` arm is `json!(s)`: a bare JSON string with no
`type` field at all. -/
theorem string_variant_serializes_bare :
    ModRs.MathNodeContent.toJson (.String "x") = some (.str "x") ∧
    ModRs.hasTypeTag (.str "x") = false :=
  ⟨rfl, rfl⟩

/-- C3 counterexample: the claim says a `VariableDefinition` whose `name` is
not an `Identifier` (here: a `Quantity`) produces a typed `MalformedTree`
error and no partial output.  The code has no error path at all: the node
serializes fully and successfully as an ordinary `variable_definition`
object embedding the quantity. -/
theorem variable_definition_not_validated :
    ModRs.MathNode.toJson
        (.mk "vd" (.VariableDefinition (.mk "q1" (.Quantity "1" none)) none)) =
      some (.obj [("id", .str "vd"),
        ("content", .obj [("type", .str "variable_definition"),
          ("name", .obj [("id", .str "q1"),
            ("content", .obj [("type", .str "quantity"), ("number", .str "1"),
              ("unit", .null)])]),
          ("definition", .null)])]) :=
  rfl

/-- C3 amended: the serializer performs no structural validation of
`VariableDefinition.name`: whatever the name node is, the arm emits a
normal `variable_definition` object around its serialization (there is no
`MalformedTree` result in the code). -/
theorem variable_definition_serialized_unconditionally :
    ∀ (name : ModRs.MathNode) (d : Option ModRs.MathNode) (nv dv : Json),
      name.toJson = some nv → ModRs.optNodeToJson d = some dv →
      ModRs.MathNodeContent.toJson (.VariableDefinition name d) =
        some (.obj [("type", .str "variable_definition"), ("name", nv),
          ("definition", dv)]) := by
  intro name d nv dv hn hd
  simp [ModRs.MathNodeContent.toJson, hn, hd]

/-- Witness for the C3 amended theorem at a concrete ill-formed node: the
name is a `Quantity`, not an `Identifier`, and serialization still
succeeds. -/
theorem variable_definition_serialized_unconditionally_witness :
    ModRs.MathNodeContent.toJson
        (.VariableDefinition (.mk "q1" (.Quantity "1" none)) none) =
      some (.obj [("type", .str "variable_definition"),
        ("name", .obj [("id", .str "q1"),
          ("content", .obj [("type", .str "quantity"), ("number", .str "1"),
            ("unit", .null)])]),
        ("definition", .null)]) :=
  variable_definition_serialized_unconditionally
    (.mk "q1" (.Quantity "1" none)) none _ _ rfl rfl

/-- C2 amended: every `MathNodeContent` variant *except* `String` (whose
arm emits the bare JSON string) serializes — when it returns at all — to an
object carrying a string-valued `type` tag, and every `Option` field the
variant declares appears explicitly as `null` when absent, never omitted. -/
theorem non_string_variants_tagged_with_explicit_nulls :
    ∀ (c : ModRs.MathNodeContent) (v : Json),
      ModRs.MathNodeContent.toJson c = some v →
      ModRs.isStringVariant c = false →
      ModRs.hasTypeTag v = true ∧ ModRs.noneNullOk c v = true := by
  intro c v h hs
  cases c with
  | Empty =>
      simp only [ModRs.MathNodeContent.toJson, Option.some.injEq] at h
      subst h
      exact ⟨by simp [ModRs.hasTypeTag, Json.lookup?, List.lookup], rfl⟩
  | Text s =>
      simp only [ModRs.MathNodeContent.toJson, Option.some.injEq] at h
      subst h
      exact ⟨by simp [ModRs.hasTypeTag, Json.lookup?, List.lookup], rfl⟩
  | String s => simp [ModRs.isStringVariant] at hs
  | Integration i va lo hi =>
      simp only [ModRs.MathNodeContent.toJson] at h
      rcases Option.bind_eq_some.mp h with ⟨iv, hiv, h⟩
      rcases Option.bind_eq_some.mp h with ⟨lv, hlv, h⟩
      rcases Option.bind_eq_some.mp h with ⟨uv, huv, h⟩
      injection h with h
      subst h
      refine ⟨by simp [ModRs.hasTypeTag, Json.lookup?, List.lookup], ?_⟩
      simp only [ModRs.noneNullOk, Bool.and_eq_true]
      exact ⟨chkOpt_of_lookup hlv (by simp [Json.lookup?, List.lookup]),
             chkOpt_of_lookup huv (by simp [Json.lookup?, List.lookup])⟩
  | Limit f va a =>
      simp only [ModRs.MathNodeContent.toJson] at h
      rcases Option.bind_eq_some.mp h with ⟨fv, hfv, h⟩
      rcases Option.bind_eq_some.mp h with ⟨av, hav, h⟩
      injection h with h
      subst h
      exact ⟨by simp [ModRs.hasTypeTag, Json.lookup?, List.lookup], rfl⟩
  | Multiplications terms =>
      simp only [ModRs.MathNodeContent.toJson] at h
      rcases Option.bind_eq_some.mp h with ⟨ts, hts, h⟩
      injection h with h
      subst h
      exact ⟨by simp [ModRs.hasTypeTag, Json.lookup?, List.lookup], rfl⟩
  | Additions terms =>
      simp only [ModRs.MathNodeContent.toJson] at h
      rcases Option.bind_eq_some.mp h with ⟨ts, hts, h⟩
      injection h with h
      subst h
      exact ⟨by simp [ModRs.hasTypeTag, Json.lookup?, List.lookup], rfl⟩
  | Division n d style =>
      simp only [ModRs.MathNodeContent.toJson] at h
      rcases Option.bind_eq_some.mp h with ⟨nv, hnv, h⟩
      rcases Option.bind_eq_some.mp h with ⟨dv, hdv, h⟩
      injection h with h
      subst h
      exact ⟨by simp [ModRs.hasTypeTag, Json.lookup?, List.lookup], rfl⟩
  | SumNotation s va lo hi =>
      simp only [ModRs.MathNodeContent.toJson] at h
      rcases Option.bind_eq_some.mp h with ⟨sv, hsv, h⟩
      rcases Option.bind_eq_some.mp h with ⟨vv, hvv, h⟩
      rcases Option.bind_eq_some.mp h with ⟨lv, hlv, h⟩
      rcases Option.bind_eq_some.mp h with ⟨uv, huv, h⟩
      injection h with h
      subst h
      refine ⟨by simp [ModRs.hasTypeTag, Json.lookup?, List.lookup], ?_⟩
      simp only [ModRs.noneNullOk, Bool.and_eq_true]
      exact ⟨⟨chkOpt_of_lookup hvv (by simp [Json.lookup?, List.lookup]),
              chkOpt_of_lookup hlv (by simp [Json.lookup?, List.lookup])⟩,
             chkOpt_of_lookup huv (by simp [Json.lookup?, List.lookup])⟩
  | ProductNotation m va lo hi =>
      simp only [ModRs.MathNodeContent.toJson] at h
      rcases Option.bind_eq_some.mp h with ⟨mv, hmv, h⟩
      rcases Option.bind_eq_some.mp h with ⟨vv, hvv, h⟩
      rcases Option.bind_eq_some.mp h with ⟨lv, hlv, h⟩
      rcases Option.bind_eq_some.mp h with ⟨uv, huv, h⟩
      injection h with h
      subst h
      refine ⟨by simp [ModRs.hasTypeTag, Json.lookup?, List.lookup], ?_⟩
      simp only [ModRs.noneNullOk, Bool.and_eq_true]
      exact ⟨⟨chkOpt_of_lookup hvv (by simp [Json.lookup?, List.lookup]),
              chkOpt_of_lookup hlv (by simp [Json.lookup?, List.lookup])⟩,
             chkOpt_of_lookup huv (by simp [Json.lookup?, List.lookup])⟩
  | Fraction n d =>
      simp only [ModRs.MathNodeContent.toJson] at h
      rcases Option.bind_eq_some.mp h with ⟨nv, hnv, h⟩
      rcases Option.bind_eq_some.mp h with ⟨dv, hdv, h⟩
      injection h with h
      subst h
      exact ⟨by simp [ModRs.hasTypeTag, Json.lookup?, List.lookup], rfl⟩
  | Bracketed inner style size =>
      simp only [ModRs.MathNodeContent.toJson] at h
      rcases Option.bind_eq_some.mp h with ⟨iv, hiv, h⟩
      injection h with h
      subst h
      exact ⟨by simp [ModRs.hasTypeTag, Json.lookup?, List.lookup], rfl⟩
  | Matrix rows =>
      simp only [ModRs.MathNodeContent.toJson] at h
      rcases Option.bind_eq_some.mp h with ⟨rs, hrs, h⟩
      injection h with h
      subst h
      exact ⟨by simp [ModRs.hasTypeTag, Json.lookup?, List.lookup], rfl⟩
  | LogFunction base p =>
      simp only [ModRs.MathNodeContent.toJson] at h
      rcases Option.bind_eq_some.mp h with ⟨pv, hpv, h⟩
      injection h with h
      subst h
      refine ⟨by simp [ModRs.hasTypeTag, Json.lookup?, List.lookup], ?_⟩
      cases base with
      | none =>
          simp [ModRs.noneNullOk, ModRs.chkOpt, ModRs.isNullAt, ModRs.serdeOptNode,
            Json.lookup?, List.lookup]
      | some m => rfl
  | Log2 p => exact absurd h (by simp [ModRs.MathNodeContent.toJson])
  | Log10 p => exact absurd h (by simp [ModRs.MathNodeContent.toJson])
  | Ln p => exact absurd h (by simp [ModRs.MathNodeContent.toJson])
  | UnaryPostfix p op =>
      simp only [ModRs.MathNodeContent.toJson] at h
      rcases Option.bind_eq_some.mp h with ⟨pv, hpv, h⟩
      injection h with h
      subst h
      exact ⟨by simp [ModRs.hasTypeTag, Json.lookup?, List.lookup], rfl⟩
  | UnaryPrefix p op =>
      simp only [ModRs.MathNodeContent.toJson] at h
      rcases Option.bind_eq_some.mp h with ⟨pv, hpv, h⟩
      injection h with h
      subst h
      exact ⟨by simp [ModRs.hasTypeTag, Json.lookup?, List.lookup], rfl⟩
  | Abs p =>
      simp only [ModRs.MathNodeContent.toJson] at h
      rcases Option.bind_eq_some.mp h with ⟨pv, hpv, h⟩
      injection h with h
      subst h
      exact ⟨by simp [ModRs.hasTypeTag, Json.lookup?, List.lookup], rfl⟩
  | Power b e =>
      simp only [ModRs.MathNodeContent.toJson] at h
      rcases Option.bind_eq_some.mp h with ⟨bv, hbv, h⟩
      rcases Option.bind_eq_some.mp h with ⟨ev, hev, h⟩
      injection h with h
      subst h
      exact ⟨by simp [ModRs.hasTypeTag, Json.lookup?, List.lookup], rfl⟩
  | CustomFunction n ps =>
      simp only [ModRs.MathNodeContent.toJson] at h
      rcases Option.bind_eq_some.mp h with ⟨nv, hnv, h⟩
      rcases Option.bind_eq_some.mp h with ⟨pvs, hpvs, h⟩
      injection h with h
      subst h
      exact ⟨by simp [ModRs.hasTypeTag, Json.lookup?, List.lookup], rfl⟩
  | SimpleUnaryFunction n p =>
      simp only [ModRs.MathNodeContent.toJson] at h
      rcases Option.bind_eq_some.mp h with ⟨pv, hpv, h⟩
      injection h with h
      subst h
      exact ⟨by simp [ModRs.hasTypeTag, Json.lookup?, List.lookup], rfl⟩
  | SimpleMultinaryFunction n ps =>
      simp only [ModRs.MathNodeContent.toJson] at h
      rcases Option.bind_eq_some.mp h with ⟨pvs, hpvs, h⟩
      injection h with h
      subst h
      exact ⟨by simp [ModRs.hasTypeTag, Json.lookup?, List.lookup], rfl⟩
  | Quantity number unit =>
      simp only [ModRs.MathNodeContent.toJson] at h
      rcases Option.bind_eq_some.mp h with ⟨uv, huv, h⟩
      injection h with h
      subst h
      refine ⟨by simp [ModRs.hasTypeTag, Json.lookup?, List.lookup], ?_⟩
      simp only [ModRs.noneNullOk]
      exact chkOpt_of_lookup huv (by simp [Json.lookup?, List.lookup])
  | Identifier body pre mid post primes isf =>
      simp only [ModRs.MathNodeContent.toJson] at h
      rcases Option.bind_eq_some.mp h with ⟨prev, hprev, h⟩
      rcases Option.bind_eq_some.mp h with ⟨postv, hpostv, h⟩
      injection h with h
      subst h
      refine ⟨by simp [ModRs.hasTypeTag, Json.lookup?, List.lookup], ?_⟩
      simp only [ModRs.noneNullOk, Bool.and_eq_true]
      refine ⟨⟨chkOpt_of_lookup hprev (by simp [Json.lookup?, List.lookup]), ?_⟩,
              chkOpt_of_lookup hpostv (by simp [Json.lookup?, List.lookup])⟩
      cases mid with
      | none => simp [ModRs.isNullAt, Json.lookup?, List.lookup]
      | some m => rfl
  | Script subs sups =>
      simp only [ModRs.MathNodeContent.toJson] at h
      rcases Option.bind_eq_some.mp h with ⟨subv, hsubv, h⟩
      rcases Option.bind_eq_some.mp h with ⟨supv, hsupv, h⟩
      injection h with h
      subst h
      exact ⟨by simp [ModRs.hasTypeTag, Json.lookup?, List.lookup], rfl⟩
  | Unit o f =>
      simp only [ModRs.MathNodeContent.toJson] at h
      rcases Option.bind_eq_some.mp h with ⟨ov, hov, h⟩
      rcases Option.bind_eq_some.mp h with ⟨fv, hfv, h⟩
      injection h with h
      subst h
      exact ⟨by simp [ModRs.hasTypeTag, Json.lookup?, List.lookup], rfl⟩
  | BaseUnit s =>
      simp only [ModRs.MathNodeContent.toJson, Option.some.injEq] at h
      subst h
      exact ⟨by simp [ModRs.hasTypeTag, Json.lookup?, List.lookup], rfl⟩
  | Relationship lhs rhs op =>
      simp only [ModRs.MathNodeContent.toJson] at h
      rcases Option.bind_eq_some.mp h with ⟨lv, hlv, h⟩
      rcases Option.bind_eq_some.mp h with ⟨rv, hrv, h⟩
      injection h with h
      subst h
      exact ⟨by simp [ModRs.hasTypeTag, Json.lookup?, List.lookup], rfl⟩
  | VariableDefinition n d =>
      simp only [ModRs.MathNodeContent.toJson] at h
      rcases Option.bind_eq_some.mp h with ⟨nv, hnv, h⟩
      rcases Option.bind_eq_some.mp h with ⟨dv, hdv, h⟩
      injection h with h
      subst h
      refine ⟨by simp [ModRs.hasTypeTag, Json.lookup?, List.lookup], ?_⟩
      simp only [ModRs.noneNullOk]
      exact chkOpt_of_lookup hdv (by simp [Json.lookup?, List.lookup])
  | FunctionDefinition cf d =>
      simp only [ModRs.MathNodeContent.toJson] at h
      rcases Option.bind_eq_some.mp h with ⟨cv, hcv, h⟩
      rcases Option.bind_eq_some.mp h with ⟨dv, hdv, h⟩
      injection h with h
      subst h
      refine ⟨by simp [ModRs.hasTypeTag, Json.lookup?, List.lookup], ?_⟩
      simp only [ModRs.noneNullOk]
      exact chkOpt_of_lookup hdv (by simp [Json.lookup?, List.lookup])

/-- Witness for the C2 amended theorem at the concrete non-`String` content
`Quantity{number:"1", unit:None}`. -/
theorem non_string_variants_tagged_witness :
    ModRs.hasTypeTag (.obj [("type", .str "quantity"), ("number", .str "1"),
        ("unit", .null)]) = true ∧
    ModRs.noneNullOk (.Quantity "1" none)
      (.obj [("type", .str "quantity"), ("number", .str "1"),
        ("unit", .null)]) = true :=
  non_string_variants_tagged_with_explicit_nulls (.Quantity "1" none) _ rfl rfl

/-- C5: serialization is deterministic — two calls of `to_json` on the same
immutable tree give equal results.  The embedded serializer is a pure
function of the tree, with no hidden state, randomness or timestamps. -/
theorem to_json_deterministic :
    ∀ n : ModRs.MathNode, n.toJson = n.toJson :=
  fun _ => rfl

/-- C7 counterexample: the claim says `BracketSize::Sized(n)` serializes to
the string `"sized_<n>"` *anywhere*, never a bare integer.  But the
`LogFunction` arm writes `"base": base`, handing the base node to the
derived serde encoding — and there a nested `Bracketed{size: Sized(2)}`
serializes its size as `{"Sized": 2}`, a bare number payload, not the
string `"sized_2"`. -/
theorem sized_serde_encodes_bare_integer :
    ModRs.MathNodeContent.toJson
        (.LogFunction
          (some (.mk "b" (.Bracketed ModRs.MathNode.empty .Round (.Sized 2))))
          ModRs.MathNode.empty) =
      some (.obj [("type", .str "logarithmic_function"),
        ("base", .obj [("id", .str "b"),
          ("content", .obj [("Bracketed", .obj
            [("inner", .obj [("id", .str ""), ("content", .str "Empty")]),
             ("style", .str "Round"),
             ("size", .obj [("Sized", .num 2)])])])]),
        ("parameter", .obj [("id", .str ""),
          ("content", .obj [("type", .str "empty")])])]) ∧
    ModRs.serdeBracketSize (.Sized 2) = .obj [("Sized", .num 2)] ∧
    ModRs.serdeBracketSize (.Sized 2) ≠ .str ("sized_" ++ toString 2) :=
  ⟨rfl, rfl, by simp [ModRs.serdeBracketSize]⟩

/-- C7 amended: `Bracketed{inner, style: Round, size: Normal}` serializes
to a `bracketed`-typed object with style string `"round"` and size string
`"normal"`; and whenever a `Bracketed` node is serialized by the
serializer's `Bracketed` arm (the only `to_json` arm that touches
`BracketSize`), `Sized(n)` yields the computed string tag `"sized_<n>"`,
never a bare integer.  The exception forced by the counterexample: a
`Bracketed` node reached through the derived serde encoding of
`LogFunction`'s `base` field serializes its size as `{"Sized": n}`
instead. -/
theorem bracketed_round_normal_and_sized_tags :
    (∀ (inner : ModRs.MathNode) (vi : Json), inner.toJson = some vi →
      ModRs.MathNodeContent.toJson (.Bracketed inner .Round .Normal) =
        some (.obj [("type", .str "bracketed"), ("inner", vi),
          ("style", .str "round"), ("size", .str "normal")])) ∧
    (∀ (inner : ModRs.MathNode) (style : ModRs.BracketStyle) (n : Nat) (v : Json),
      ModRs.MathNodeContent.toJson (.Bracketed inner style (.Sized n)) = some v →
      Json.lookup? v "size" = some (.str ("sized_" ++ toString n))) := by
  constructor
  · intro inner vi h
    simp [ModRs.MathNodeContent.toJson, h, ModRs.bracketStyleToStr, ModRs.bracketSizeToStr]
  · intro inner style n v h
    simp only [ModRs.MathNodeContent.toJson] at h
    rcases Option.bind_eq_some.mp h with ⟨iv, hiv, h⟩
    injection h with h
    subst h
    simp [Json.lookup?, List.lookup, ModRs.bracketSizeToStr]

/-- Witness for C7 at concrete inputs: the empty node in round/normal
brackets, and `Sized(2)` giving the tag `"sized_2"`. -/
theorem bracketed_round_normal_and_sized_tags_witness :
    ModRs.MathNodeContent.toJson (.Bracketed ModRs.MathNode.empty .Round .Normal) =
      some (.obj [("type", .str "bracketed"),
        ("inner", .obj [("id", .str ""), ("content", .obj [("type", .str "empty")])]),
        ("style", .str "round"), ("size", .str "normal")]) ∧
    Json.lookup?
        (.obj [("type", .str "bracketed"),
          ("inner", .obj [("id", .str ""), ("content", .obj [("type", .str "empty")])]),
          ("style", .str "round"), ("size", .str "sized_2")]) "size" =
      some (.str ("sized_" ++ toString 2)) :=
  ⟨bracketed_round_normal_and_sized_tags.1 ModRs.MathNode.empty _ rfl,
   bracketed_round_normal_and_sized_tags.2 ModRs.MathNode.empty .Round 2 _ rfl⟩

/-- C8: a `Quantity`'s `number` field is passed through to the output as
the identical string (never parsed to a number), and the concrete node
`Quantity{number:"3.14", unit:None}` gives `type:"quantity"`,
`number:"3.14"`, `unit:null`.  (In the serializer's revision of the model,
`Quantity` has no `scientific_notation` field, so the claim's
`scientific_notation: None` is vacuous.) -/
theorem quantity_number_passed_through :
    (∀ (number : String) (unit : Option ModRs.MathNode) (v : Json),
      ModRs.MathNodeContent.toJson (.Quantity number unit) = some v →
      ∃ uv, v = .obj [("type", .str "quantity"), ("number", .str number),
        ("unit", uv)]) ∧
    ModRs.MathNodeContent.toJson (.Quantity "3.14" none) =
      some (.obj [("type", .str "quantity"), ("number", .str "3.14"),
        ("unit", .null)]) := by
  constructor
  · intro number unit v h
    simp only [ModRs.MathNodeContent.toJson] at h
    rcases Option.bind_eq_some.mp h with ⟨uv, huv, h⟩
    injection h with h
    subst h
    exact ⟨uv, rfl⟩
  · rfl

/-- Witness for C8 at the concrete `Quantity{number:"3.14", unit:None}`. -/
theorem quantity_number_passed_through_witness :
    ∃ uv, (Json.obj [("type", .str "quantity"), ("number", .str "3.14"),
        ("unit", .null)]) =
      .obj [("type", .str "quantity"), ("number", .str "3.14"), ("unit", uv)] :=
  quantity_number_passed_through.1 "3.14" none _ rfl

/-- C4: the `Custom(string)` case of the relation-operator vocabulary is
passed through unchanged — the (spec-modelled) serializer neither rejects
the node nor alters the string. -/
theorem custom_relation_operator_passthrough :
    ∀ (f : MathNodeRs.MathNode → Json) (lhs rhs : MathNodeRs.MathNode) (s : String),
      MathNodeRs.relationshipToJson f lhs rhs (.Custom s) =
        .obj [("type", .str "relationship"), ("lhs", f lhs), ("rhs", f rhs),
          ("operator", .str s)] :=
  fun _ _ _ _ => rfl

/-- C6: serializing `Additions{terms:[(None, Identifier("a")),
(Subtraction, Identifier("b"))]}` (spec-modelled arm over the
`math_node.rs` operator enum, which has the `None` leading tag) yields a
`terms` array of exactly two entries whose second entry carries operator
`"minus"`; the first entry carries the image of the `None` tag. -/
theorem additions_second_term_minus :
    ∀ f : MathNodeRs.MathNode → Json,
      MathNodeRs.additionsToJson f
          [(.None, MathNodeRs.MathNode.identifier (MathNodeRs.Identifier.new_simple "a")),
           (.Subtraction, MathNodeRs.MathNode.identifier (MathNodeRs.Identifier.new_simple "b"))] =
        .obj [("type", .str "addition"),
          ("terms", .arr
            [.obj [("operator", MathNodeRs.refinedAddOrSubToJson .None),
              ("term", f (MathNodeRs.MathNode.identifier (MathNodeRs.Identifier.new_simple "a")))],
             .obj [("operator", .str "minus"),
              ("term", f (MathNodeRs.MathNode.identifier (MathNodeRs.Identifier.new_simple "b")))]])] :=
  fun _ => rfl

/-- C9: `Identifier`'s `Ord` implementation compares only the `body` field,
so any two identifiers with equal bodies compare `Equal` — even when they
differ in scripts, primes or the function flag, i.e. when they are not
equal under the derived `PartialEq` (which compares all fields).  `Ord` is
strictly coarser than `Eq`. -/
theorem identifier_ord_coarser_than_eq :
    (∀ a b : MathNodeRs.Identifier, a.body = b.body →
      MathNodeRs.Identifier.cmp a b = Ordering.eq) ∧
    (∃ a b : MathNodeRs.Identifier,
      MathNodeRs.Identifier.cmp a b = Ordering.eq ∧ a ≠ b) := by
  constructor
  · intro a b h
    simp [MathNodeRs.Identifier.cmp, h, compare, compareOfLessAndEq]
  · refine ⟨.mk "x" none none none 0 false, .mk "x" none none none 1 false, ?_, ?_⟩
    · simp [MathNodeRs.Identifier.cmp, MathNodeRs.Identifier.body, compare,
        compareOfLessAndEq]
    · simp

/-- Witness for C9 at two concrete identifiers sharing the body `"x"` but
differing in `primes` and `is_function`. -/
theorem identifier_ord_coarser_than_eq_witness :
    MathNodeRs.Identifier.cmp (.mk "x" none none none 0 false)
      (.mk "x" none none none 5 true) = Ordering.eq :=
  identifier_ord_coarser_than_eq.1 _ _ rfl

/-- C10: the `MathNode` constructor helpers fix the node id from their
argument: `identifier(x)` uses `x.body`, `string(s)` and `text(s)` use `s`
itself, and `empty()` uses the empty string with `Empty` content. -/
theorem constructors_fix_id :
    (∀ x : MathNodeRs.Identifier,
      (MathNodeRs.MathNode.identifier x).id = x.body ∧
      (MathNodeRs.MathNode.identifier x).content = .Identifier x) ∧
    (∀ s : String,
      (MathNodeRs.MathNode.string s).id = s ∧
      (MathNodeRs.MathNode.string s).content = .String s) ∧
    (∀ s : String,
      (MathNodeRs.MathNode.text s).id = s ∧
      (MathNodeRs.MathNode.text s).content = .Text s) ∧
    (MathNodeRs.MathNode.empty.id = "" ∧
      MathNodeRs.MathNode.empty.content = .Empty) :=
  ⟨fun _ => ⟨rfl, rfl⟩, fun _ => ⟨rfl, rfl⟩, fun _ => ⟨rfl, rfl⟩, rfl, rfl⟩
